import Mathlib

/-!
Shallow embedding of the `identity_program` Solana programs of the
copym-xyz/RWA-smart-contract repository.

The main revision is `src/programs/identity_program/src/lib.rs` (chain-gate-free
dispatch over six request message types, plus the credential registry).  The
earlier revision `src/contracts/solana/identity_program/identity/src/lib.rs`
carries the origin-chain gate (`require!(emitter_chain == 2, InvalidChain)`)
and is embedded separately (suffix `_v1`).

Modelling conventions:
* bytes are `Nat`s in a `List Nat` (each entry is a byte value);
* account addresses (`Pubkey` of accounts: authorities, owners, credential
  account keys) are abstracted as `Nat`; 32-byte values read from the wire
  (issuer, token_address, hashes, roles) stay byte lists;
* Rust slice indexing `&data[a..b]` panics when out of range; a panic aborts
  the Solana transaction.  We model this abort as `ProgError.indexOutOfRange`;
* borsh `try_from_slice` errors (buffer not exactly consumed) are
  `ProgError.borsh`; Anchor `ErrorCode` errors are `ProgError.code e`;
* the external mint CPI may fail; its success is an explicit `mintOk` input;
* a failing instruction commits nothing, so a step that returns `.error`
  returns no state: the pre-state persists (wrappers `runReceive`,
  `credAfterRevoke` make this explicit).
-/

namespace RWA

/-- Account addresses are abstracted as naturals. -/
abbrev Pubkey := Nat

/-- Little-endian value of a byte list (first byte is least significant). -/
def leVal : List Nat → Nat
  | [] => 0
  | b :: rest => b + 256 * leVal rest

/-- Little-endian byte encoding of `v` in exactly `w` bytes. -/
def leBytes : Nat → Nat → List Nat
  | 0, _ => []
  | w + 1, v => (v % 256) :: leBytes w (v / 256)

/-- Anchor `ErrorCode` enum of the program (src/programs/.../lib.rs 357-367). -/
inductive ErrorCode
  | InvalidChain
  | InvalidMessageType
  | StringTooLong
  | Unauthorized
deriving DecidableEq, Repr

/-- All abort causes of an instruction: program `ErrorCode`s, borsh
deserialization failures propagated via `?`, Rust slice-index panics,
failing CPI calls (mint / post_message), Anchor account validation failure,
and the `FromUtf8Error` propagated via `?` in the v1 revision. -/
inductive ProgError
  | code (e : ErrorCode)
  | borsh
  | indexOutOfRange
  | cpi
  | accountError
  | fromUtf8
deriving DecidableEq, Repr

/-- Rust `&data[a..b]`: the sub-list of positions `a ≤ i < b`, a panic
(transaction abort) when `a > b` or `b > data.length`. -/
def sliceIdx (data : List Nat) (a b : Nat) : Except ProgError (List Nat) :=
  if a ≤ b ∧ b ≤ data.length then .ok ((data.drop a).take (b - a))
  else .error .indexOutOfRange

/-- borsh `u64::try_from_slice`: exactly 8 little-endian bytes. -/
def u64_try_from_slice (s : List Nat) : Except ProgError Nat :=
  if s.length = 8 then .ok (leVal s) else .error .borsh

/-- borsh `u32::try_from_slice`: exactly 4 little-endian bytes. -/
def u32_try_from_slice (s : List Nat) : Except ProgError Nat :=
  if s.length = 4 then .ok (leVal s) else .error .borsh

/-- borsh `Pubkey::try_from_slice`: exactly 32 raw bytes (kept as bytes). -/
def pubkey_try_from_slice (s : List Nat) : Except ProgError (List Nat) :=
  if s.length = 32 then .ok s else .error .borsh

/-- Rust `data[i]`: single byte, panic when `i ≥ data.length`. -/
def indexByte (data : List Nat) (i : Nat) : Except ProgError Nat :=
  match data[i]? with
  | some b => .ok b
  | none => .error .indexOutOfRange

/-- Is `b` a UTF-8 continuation byte (`0x80..=0xBF`)? -/
def utf8Cont (b : Nat) : Bool := 0x80 ≤ b && b ≤ 0xBF

/-- Standard UTF-8 validity of a byte sequence, as checked by Rust
`String::from_utf8`. -/
def isValidUtf8 : List Nat → Bool
  | [] => true
  | b :: rest =>
    if b ≤ 0x7F then isValidUtf8 rest
    else if 0xC2 ≤ b && b ≤ 0xDF then
      match rest with
      | c1 :: r => utf8Cont c1 && isValidUtf8 r
      | [] => false
    else if b = 0xE0 then
      match rest with
      | c1 :: c2 :: r => (0xA0 ≤ c1 && c1 ≤ 0xBF) && utf8Cont c2 && isValidUtf8 r
      | _ => false
    else if (0xE1 ≤ b && b ≤ 0xEC) || b = 0xEE || b = 0xEF then
      match rest with
      | c1 :: c2 :: r => utf8Cont c1 && utf8Cont c2 && isValidUtf8 r
      | _ => false
    else if b = 0xED then
      match rest with
      | c1 :: c2 :: r => (0x80 ≤ c1 && c1 ≤ 0x9F) && utf8Cont c2 && isValidUtf8 r
      | _ => false
    else if b = 0xF0 then
      match rest with
      | c1 :: c2 :: c3 :: r =>
        (0x90 ≤ c1 && c1 ≤ 0xBF) && utf8Cont c2 && utf8Cont c3 && isValidUtf8 r
      | _ => false
    else if 0xF1 ≤ b && b ≤ 0xF3 then
      match rest with
      | c1 :: c2 :: c3 :: r =>
        utf8Cont c1 && utf8Cont c2 && utf8Cont c3 && isValidUtf8 r
      | _ => false
    else if b = 0xF4 then
      match rest with
      | c1 :: c2 :: c3 :: r =>
        (0x80 ≤ c1 && c1 ≤ 0x8F) && utf8Cont c2 && utf8Cont c3 && isValidUtf8 r
      | _ => false
    else false

/-- `impl VecToString for Vec<u8>` (lib.rs 438-442): `String::from_utf8`,
mapping a UTF-8 failure to `ErrorCode::StringTooLong`.  The (valid) byte list
itself stands for the resulting `String`. -/
def vecToString (v : List Nat) : Except ProgError (List Nat) :=
  if isValidUtf8 v then .ok v else .error (.code .StringTooLong)

/-- `deserialize_verification` (lib.rs 369-375): `u64 request_id` at 0..8,
`u32 did_len` at 8..12, `require!(did_len <= 128, StringTooLong)`, then the
did bytes at 12..12+did_len. -/
def deserialize_verification (data : List Nat) : Except ProgError (Nat × List Nat) := do
  let s0 ← sliceIdx data 0 8
  let request_id ← u64_try_from_slice s0
  let s1 ← sliceIdx data 8 12
  let did_len ← u32_try_from_slice s1
  if did_len ≤ 128 then
    let did ← sliceIdx data 12 (12 + did_len)
    .ok (request_id, did)
  else .error (.code .StringTooLong)

/-- `deserialize_asset_creation` (lib.rs 377-387): `issuer` at 0..32,
`u32 name_len` at 32..36 (bound 32), name, `u32 symbol_len` (bound 10),
symbol. -/
def deserialize_asset_creation (data : List Nat) :
    Except ProgError (List Nat × List Nat × List Nat) := do
  let s0 ← sliceIdx data 0 32
  let issuer ← pubkey_try_from_slice s0
  let s1 ← sliceIdx data 32 36
  let name_len ← u32_try_from_slice s1
  if name_len ≤ 32 then
    let name ← sliceIdx data 36 (36 + name_len)
    let symbol_start := 36 + name_len
    let s2 ← sliceIdx data symbol_start (symbol_start + 4)
    let symbol_len ← u32_try_from_slice s2
    if symbol_len ≤ 10 then
      let symbol ← sliceIdx data (symbol_start + 4) (symbol_start + 4 + symbol_len)
      .ok (issuer, name, symbol)
    else .error (.code .StringTooLong)
  else .error (.code .StringTooLong)

/-- `deserialize_token_transfer` (lib.rs 389-394): `u64 transfer_id` at 0..8,
`token_address` at 8..40, `u64 amount` at 40..48. -/
def deserialize_token_transfer (data : List Nat) :
    Except ProgError (Nat × List Nat × Nat) := do
  let s0 ← sliceIdx data 0 8
  let transfer_id ← u64_try_from_slice s0
  let s1 ← sliceIdx data 8 40
  let token_address ← pubkey_try_from_slice s1
  let s2 ← sliceIdx data 40 48
  let amount ← u64_try_from_slice s2
  .ok (transfer_id, token_address, amount)

/-- `deserialize_credential_verification` (lib.rs 396-401): `u64 request_id`
at 0..8, 32-byte `credential_hash` copied from 8..40. -/
def deserialize_credential_verification (data : List Nat) :
    Except ProgError (Nat × List Nat) := do
  let s0 ← sliceIdx data 0 8
  let request_id ← u64_try_from_slice s0
  let credential_hash ← sliceIdx data 8 40
  .ok (request_id, credential_hash)

/-- `deserialize_role_sync` (lib.rs 403-411): `u64 request_id` at 0..8,
32-byte `role` from 8..40, 32-byte `account` from 40..72,
`is_grant = data[72] != 0`. -/
def deserialize_role_sync (data : List Nat) :
    Except ProgError (Nat × List Nat × List Nat × Bool) := do
  let s0 ← sliceIdx data 0 8
  let request_id ← u64_try_from_slice s0
  let role ← sliceIdx data 8 40
  let account ← sliceIdx data 40 72
  let b ← indexByte data 72
  .ok (request_id, role, account, b ≠ 0)

/-- `MessageType` enum of the main revision (lib.rs 253-266). -/
inductive MessageType
  | Verification
  | VerificationResponse
  | AssetCreation
  | TokenTransfer
  | TokenTransferResponse
  | CredentialVerification
  | CredentialVerificationResponse
  | RoleSynchronization
  | RoleSyncResponse
  | DIDResolution
  | DIDResolutionResponse
deriving DecidableEq, Repr

/-- `MessagePayload` envelope (lib.rs 268-274). -/
structure MessagePayload where
  msg_type : MessageType
  data : List Nat
  timestamp : Nat
  message_id : List Nat
deriving DecidableEq, Repr

/-- `ProgramState` account (lib.rs 238-243). -/
structure ProgramState where
  authority : Pubkey
  verification_count : Nat
  credential_count : Nat
deriving DecidableEq, Repr

/-- `Credential` account (lib.rs 245-251). -/
structure Credential where
  hash : List Nat
  is_valid : Bool
  owner : Pubkey
  revocation_date : Nat
deriving DecidableEq, Repr

/-- The `emit!`-ted events of the main revision (lib.rs 307-355).  Textual
fields (`did`, `name`, `symbol`) are kept as their UTF-8-validated bytes. -/
inductive Event
  | verification (request_id : Nat) (did : List Nat) (verified : Bool)
  | assetCreation (issuer : List Nat) (name : List Nat) (symbol : List Nat)
  | credentialVerification (request_id : Nat) (credential_hash : List Nat) (verified : Bool)
  | roleSync (request_id : Nat) (role : List Nat) (account : List Nat) (is_grant : Bool)
  | didResolution (request_id : Nat) (did : List Nat) (resolved : Bool)
  | credentialStored (credential_pubkey : Pubkey) (credential_hash : List Nat) (owner : Pubkey)
  | credentialRevoked (credential_pubkey : Pubkey) (credential_hash : List Nat) (revocation_date : Nat)
deriving DecidableEq, Repr

/-- Response structs the handlers serialize into `_response_payload`
(lib.rs 276-305), kept at struct level: the hash/timestamp stamping of the
envelope is not consumed by any property here. -/
inductive Reply
  | verificationResponse (request_id : Nat) (verified : Bool)
  | tokenTransferResponse (transfer_id : Nat) (success : Bool)
  | credentialVerificationResponse (request_id : Nat) (verified : Bool)
  | roleSyncResponse (request_id : Nat) (success : Bool)
  | didResolutionResponse (request_id : Nat) (resolved : Bool) (did_document : List Nat)
deriving DecidableEq, Repr

/-- Observable output of one dispatch: emitted events, built reply structs,
and amounts passed to the `mint_to` CPI. -/
structure DispatchOut where
  events : List Event
  replies : List Reply
  mints : List Nat
deriving DecidableEq, Repr

/-- The init entrypoint (lib.rs 18-24): zeroed counters, caller becomes the
authority. -/
def initialState (authority : Pubkey) : ProgramState :=
  { authority := authority, verification_count := 0, credential_count := 0 }

/-- The `match payload.msg_type` dispatch of `receive_message`
(lib.rs 35-145), given the already-deserialized envelope.  `mintOk` is the
outcome of the external `mint_to` CPI.  An `.error` result models the abort
of the whole transaction: no state is committed. -/
def processPayload (mintOk : Bool) (state : ProgramState) (p : MessagePayload) :
    Except ProgError (ProgramState × DispatchOut) :=
  match p.msg_type with
  | .Verification => do
    let (request_id, did) ← deserialize_verification p.data
    let didS ← vecToString did
    .ok ({ state with verification_count := state.verification_count + 1 },
      { events := [.verification request_id didS true],
        replies := [.verificationResponse request_id true], mints := [] })
  | .AssetCreation => do
    let (issuer, name, symbol) ← deserialize_asset_creation p.data
    let nameS ← vecToString name
    let symbolS ← vecToString symbol
    .ok (state,
      { events := [.assetCreation issuer nameS symbolS], replies := [], mints := [] })
  | .TokenTransfer => do
    let (transfer_id, _token_address, amount) ← deserialize_token_transfer p.data
    if mintOk then
      .ok (state,
        { events := [], replies := [.tokenTransferResponse transfer_id true],
          mints := [amount] })
    else .error .cpi
  | .CredentialVerification => do
    let (request_id, credential_hash) ← deserialize_credential_verification p.data
    .ok ({ state with credential_count := state.credential_count + 1 },
      { events := [.credentialVerification request_id credential_hash true],
        replies := [.credentialVerificationResponse request_id true], mints := [] })
  | .RoleSynchronization => do
    let (request_id, role, account, is_grant) ← deserialize_role_sync p.data
    .ok (state,
      { events := [.roleSync request_id role account is_grant],
        replies := [.roleSyncResponse request_id true], mints := [] })
  | .DIDResolution => do
    let (request_id, did) ← deserialize_verification p.data
    let didS ← vecToString did
    .ok (state,
      { events := [.didResolution request_id didS true],
        replies := [.didResolutionResponse request_id true []], mints := [] })
  | _ => .error (.code .InvalidMessageType)

/-- A payload whose tag is one of the five outbound response variants. -/
def isResponseType (t : MessageType) : Bool :=
  match t with
  | .VerificationResponse => true
  | .TokenTransferResponse => true
  | .CredentialVerificationResponse => true
  | .RoleSyncResponse => true
  | .DIDResolutionResponse => true
  | _ => false

/-- The persistent store: the singleton `ProgramState` plus every
`Credential` account, addressed by its account key (modelled as the list
index). -/
structure RegistryState where
  state : ProgramState
  credentials : List Credential
deriving DecidableEq, Repr

/-- `receive_message` dispatch lifted to the whole store.  The
`ReceiveMessage` accounts (lib.rs 203-218) contain no `Credential` account,
so the credential list passes through untouched. -/
def processPayloadSys (mintOk : Bool) (sys : RegistryState) (p : MessagePayload) :
    Except ProgError (RegistryState × DispatchOut) :=
  match processPayload mintOk sys.state p with
  | .ok (s, out) => .ok ({ sys with state := s }, out)
  | .error e => .error e

/-- Persistent store after a `receive_message` transaction: the new store on
success, the untouched pre-state on abort (Solana discards the writes of a
failed instruction). -/
def runReceive (mintOk : Bool) (sys : RegistryState) (p : MessagePayload) : RegistryState :=
  match processPayloadSys mintOk sys p with
  | .ok (sys1, _) => sys1
  | .error _ => sys

/-- `store_credential` (lib.rs 150-168): fills the fresh credential account,
increments `credential_count`, emits `CredentialStoredEvent`.  The fresh
account's key (handle) is the next free index. -/
def store_credential (sys : RegistryState) (authority : Pubkey) (credential_hash : List Nat) :
    RegistryState × Event :=
  let credential : Credential :=
    { hash := credential_hash, is_valid := true, owner := authority, revocation_date := 0 }
  let handle : Pubkey := sys.credentials.length
  ({ state := { sys.state with credential_count := sys.state.credential_count + 1 },
     credentials := sys.credentials ++ [credential] },
   .credentialStored handle credential_hash authority)

/-- `revoke_credential` (lib.rs 171-191) on the loaded credential account:
`require!(owner == authority, Unauthorized)`, then set `is_valid = false`
and `revocation_date = now`, and emit `CredentialRevokedEvent`. -/
def revoke_credential (credential_pubkey : Pubkey) (credential : Credential)
    (caller : Pubkey) (now : Nat) : Except ProgError (Credential × Event) :=
  if credential.owner = caller then
    let c := { credential with is_valid := false, revocation_date := now }
    .ok (c, .credentialRevoked credential_pubkey credential.hash c.revocation_date)
  else .error (.code .Unauthorized)

/-- The credential account after a `revoke_credential` transaction: on abort
the pre-state persists. -/
def credAfterRevoke (credential_pubkey : Pubkey) (credential : Credential)
    (caller : Pubkey) (now : Nat) : Credential :=
  match revoke_credential credential_pubkey credential caller now with
  | .ok (c, _) => c
  | .error _ => credential

/-- `revoke_credential` lifted to the whole store.  The `RevokeCredential`
accounts (lib.rs 231-236) are just the credential and the signer — in
particular no `ProgramState`.  A handle not naming an allocated account is
rejected by Anchor's account validation before the handler runs. -/
def revoke_in_system (sys : RegistryState) (handle : Nat) (caller : Pubkey) (now : Nat) :
    Except ProgError (RegistryState × Event) :=
  match sys.credentials[handle]? with
  | none => .error .accountError
  | some credential =>
    match revoke_credential handle credential caller now with
    | .ok (c, ev) => .ok ({ sys with credentials := sys.credentials.set handle c }, ev)
    | .error e => .error e

/-! ### Earlier revision `src/contracts/solana/identity_program/identity/src/lib.rs`
(the revision carrying the origin-chain gate), embedded with suffix `_v1`. -/

/-- `MessageType` of the v1 revision (its lib.rs 110-116). -/
inductive MessageTypeV1
  | Verification
  | VerificationResponse
  | AssetCreation
  | TokenTransfer
  | TokenTransferResponse
deriving DecidableEq, Repr

/-- `MessagePayload` of the v1 revision (its lib.rs 118-122). -/
structure MessagePayloadV1 where
  msg_type : MessageTypeV1
  data : List Nat
deriving DecidableEq, Repr

/-- `ProgramState` of the v1 revision (its lib.rs 103-107): only the
authority and `verification_count`. -/
structure ProgramStateV1 where
  authority : Pubkey
  verification_count : Nat
deriving DecidableEq, Repr

/-- Events of the v1 revision (its lib.rs 136-148). -/
inductive EventV1
  | verification (request_id : Nat) (did : List Nat) (verified : Bool)
  | assetCreation (issuer : List Nat) (name : List Nat) (symbol : List Nat)
deriving DecidableEq, Repr

/-- A `wormhole_program.post_message` call of the v1 revision: the reply
struct plus the destination chain id. -/
inductive PostV1
  | verificationResponse (request_id : Nat) (verified : Bool) (chain : Nat)
  | tokenTransferResponse (transfer_id : Nat) (success : Bool) (chain : Nat)
deriving DecidableEq, Repr

/-- Output of a v1 dispatch: events, posted replies, minted amounts. -/
structure DispatchOutV1 where
  events : List EventV1
  posts : List PostV1
  mints : List Nat
deriving DecidableEq, Repr

/-- borsh decode of `MessagePayloadV1` from the VAA payload bytes: a 1-byte
enum tag, then `Vec<u8>` as a `u32` length prefix plus exactly that many
bytes, consuming the whole buffer. -/
def deserializeMessagePayloadV1 (bytes : List Nat) : Except ProgError MessagePayloadV1 :=
  match bytes with
  | [] => .error .borsh
  | t :: rest =>
    let mt : Except ProgError MessageTypeV1 :=
      if t = 0 then .ok .Verification
      else if t = 1 then .ok .VerificationResponse
      else if t = 2 then .ok .AssetCreation
      else if t = 3 then .ok .TokenTransfer
      else if t = 4 then .ok .TokenTransferResponse
      else .error .borsh
    match mt with
    | .error e => .error e
    | .ok m =>
      if 4 ≤ rest.length then
        let len := leVal (rest.take 4)
        let body := rest.drop 4
        if body.length = len then .ok { msg_type := m, data := body }
        else .error .borsh
      else .error .borsh

/-- v1 `deserialize_verification` (its lib.rs 159-163): `u64 request_id` at
0..8, then `String::from_utf8(data[8..])` whose failure propagates via `?`. -/
def deserialize_verification_v1 (data : List Nat) : Except ProgError (Nat × List Nat) := do
  let s0 ← sliceIdx data 0 8
  let request_id ← u64_try_from_slice s0
  let tail ← sliceIdx data 8 data.length
  if isValidUtf8 tail then .ok (request_id, tail) else .error .fromUtf8

/-- v1 `deserialize_asset_creation` (its lib.rs 165-168): a stub returning
`(Pubkey::default(), String::new(), String::new())`. -/
def deserialize_asset_creation_v1 (_data : List Nat) :
    Except ProgError (List Nat × List Nat × List Nat) :=
  .ok (List.replicate 32 0, [], [])

/-- v1 `deserialize_token_transfer` (its lib.rs 170-174): `u64 transfer_id`
at 0..8, `u64 amount` at 8..16, `Pubkey::default()` for the address. -/
def deserialize_token_transfer_v1 (data : List Nat) :
    Except ProgError (Nat × List Nat × Nat) := do
  let s0 ← sliceIdx data 0 8
  let transfer_id ← u64_try_from_slice s0
  let s1 ← sliceIdx data 8 16
  let amount ← u64_try_from_slice s1
  .ok (transfer_id, List.replicate 32 0, amount)

/-- v1 `receive_message` (its lib.rs 18-76), after the external
`VaaAccount::load` succeeded: `require!(emitter_chain == 2, InvalidChain)`
comes FIRST — before the payload is even deserialized and before any handler
— then the envelope is decoded and dispatched.  `mintOk` / `postOk` are the
outcomes of the external mint and `post_message` CPIs. -/
def receive_message_v1 (emitter_chain : Nat) (vaaPayload : List Nat)
    (state : ProgramStateV1) (mintOk postOk : Bool) :
    Except ProgError (ProgramStateV1 × DispatchOutV1) :=
  if emitter_chain = 2 then do
    let p ← deserializeMessagePayloadV1 vaaPayload
    match p.msg_type with
    | .Verification => do
      let (request_id, did) ← deserialize_verification_v1 p.data
      let state1 := { state with verification_count := state.verification_count + 1 }
      if postOk then
        .ok (state1,
          { events := [.verification request_id did true],
            posts := [.verificationResponse request_id true 2], mints := [] })
      else .error .cpi
    | .AssetCreation => do
      let (issuer, name, symbol) ← deserialize_asset_creation_v1 p.data
      .ok (state,
        { events := [.assetCreation issuer name symbol], posts := [], mints := [] })
    | .TokenTransfer => do
      let (transfer_id, _token_address, amount) ← deserialize_token_transfer_v1 p.data
      if mintOk then
        if postOk then
          .ok (state,
            { events := [], posts := [.tokenTransferResponse transfer_id true 2],
              mints := [amount] })
        else .error .cpi
      else .error .cpi
    | _ => .error (.code .InvalidMessageType)
  else .error (.code .InvalidChain)

/-- Persistent v1 state after a `receive_message` transaction (pre-state on
abort). -/
def runReceiveV1 (emitter_chain : Nat) (vaaPayload : List Nat)
    (state : ProgramStateV1) (mintOk postOk : Bool) : ProgramStateV1 :=
  match receive_message_v1 emitter_chain vaaPayload state mintOk postOk with
  | .ok (s, _) => s
  | .error _ => state

/-! ### Reference encodings (spec §4.1)
These follow the spec's layout table, to be compared with the decoders
embedded from the source (round-trip claim). -/

/-- Spec layout `u64 request_id | u32 did_len | did bytes` for Verification
and DIDResolution requests. -/
def encode_verification (request_id : Nat) (did : List Nat) : List Nat :=
  leBytes 8 request_id ++ leBytes 4 did.length ++ did

/-- Spec layout `32B issuer | u32 name_len | name | u32 symbol_len | symbol`. -/
def encode_asset_creation (issuer name symbol : List Nat) : List Nat :=
  issuer ++ leBytes 4 name.length ++ name ++ leBytes 4 symbol.length ++ symbol

/-- Spec layout `u64 transfer_id | 32B token_address | u64 amount`. -/
def encode_token_transfer (transfer_id : Nat) (token_address : List Nat)
    (amount : Nat) : List Nat :=
  leBytes 8 transfer_id ++ token_address ++ leBytes 8 amount

/-- Spec layout `u64 request_id | 32B credential_hash`. -/
def encode_credential_verification (request_id : Nat) (credential_hash : List Nat) :
    List Nat :=
  leBytes 8 request_id ++ credential_hash

/-- Spec layout `u64 request_id | 32B role | 32B account | 1B is_grant`. -/
def encode_role_sync (request_id : Nat) (role account : List Nat)
    (is_grant : Bool) : List Nat :=
  leBytes 8 request_id ++ role ++ account ++ [if is_grant then 1 else 0]

/-! ### Helper lemmas -/

@[simp]
theorem ok_bind {α β : Type} (a : α) (f : α → Except ProgError β) :
    (Except.ok a : Except ProgError α) >>= f = f a := rfl

@[simp]
theorem error_bind {α β : Type} (e : ProgError) (f : α → Except ProgError β) :
    (Except.error e : Except ProgError α) >>= f = .error e := rfl

@[simp]
theorem leBytes_length (w v : Nat) : (leBytes w v).length = w := by
  induction w generalizing v with
  | zero => rfl
  | succ w ih => simp [leBytes, ih]

theorem leVal_leBytes (w v : Nat) (h : v < 256 ^ w) : leVal (leBytes w v) = v := by
  induction w generalizing v with
  | zero => simp only [pow_zero] at h; simp [leBytes, leVal]; omega
  | succ w ih =>
    rw [pow_succ] at h
    have hv : v / 256 < 256 ^ w := by omega
    simp only [leBytes, leVal, ih _ hv]
    omega

theorem sliceIdx_spec (data pre mid post : List Nat) (a b : Nat)
    (hdata : data = pre ++ (mid ++ post)) (ha : a = pre.length)
    (hb : b = pre.length + mid.length) :
    sliceIdx data a b = .ok mid := by
  subst hdata ha hb
  unfold sliceIdx
  rw [if_pos]
  · congr 1
    rw [List.drop_left' rfl,
      show pre.length + mid.length - pre.length = mid.length from by omega]
    exact List.take_left' rfl
  · refine ⟨by omega, ?_⟩
    simp [List.length_append]

theorem u64_leBytes (v : Nat) (h : v < 2 ^ 64) :
    u64_try_from_slice (leBytes 8 v) = .ok v := by
  unfold u64_try_from_slice
  rw [if_pos (leBytes_length 8 v), leVal_leBytes 8 v (by norm_num at h ⊢; omega)]

theorem u32_leBytes (v : Nat) (h : v < 2 ^ 32) :
    u32_try_from_slice (leBytes 4 v) = .ok v := by
  unfold u32_try_from_slice
  rw [if_pos (leBytes_length 4 v), leVal_leBytes 4 v (by norm_num at h ⊢; omega)]

theorem sliceIdx_ok_of_le (data : List Nat) (a b : Nat) (hab : a ≤ b)
    (hb : b ≤ data.length) :
    sliceIdx data a b = .ok ((data.drop a).take (b - a)) := by
  unfold sliceIdx; rw [if_pos ⟨hab, hb⟩]

theorem sliceIdx_err (data : List Nat) (a b : Nat) (h : data.length < b) :
    sliceIdx data a b = .error .indexOutOfRange := by
  unfold sliceIdx
  rw [if_neg]
  rintro ⟨-, h2⟩
  omega

theorem read_u64_at (data : List Nat) (a : Nat) (h : a + 8 ≤ data.length) :
    sliceIdx data a (a + 8) >>= u64_try_from_slice =
      .ok (leVal ((data.drop a).take 8)) := by
  rw [sliceIdx_ok_of_le _ _ _ (by omega) h]
  simp only [ok_bind, show a + 8 - a = 8 from by omega]
  unfold u64_try_from_slice
  rw [if_pos (by simp [List.length_take, List.length_drop]; omega)]

theorem read_u32_at (data : List Nat) (a : Nat) (h : a + 4 ≤ data.length) :
    sliceIdx data a (a + 4) >>= u32_try_from_slice =
      .ok (leVal ((data.drop a).take 4)) := by
  rw [sliceIdx_ok_of_le _ _ _ (by omega) h]
  simp only [ok_bind, show a + 4 - a = 4 from by omega]
  unfold u32_try_from_slice
  rw [if_pos (by simp [List.length_take, List.length_drop]; omega)]

theorem read_pubkey_at (data : List Nat) (a : Nat) (h : a + 32 ≤ data.length) :
    sliceIdx data a (a + 32) >>= pubkey_try_from_slice =
      .ok ((data.drop a).take 32) := by
  rw [sliceIdx_ok_of_le _ _ _ (by omega) h]
  simp only [ok_bind, show a + 32 - a = 32 from by omega]
  unfold pubkey_try_from_slice
  rw [if_pos (by simp [List.length_take, List.length_drop]; omega)]

theorem verification_roundtrip (rid : Nat) (did : List Nat)
    (h1 : rid < 2 ^ 64) (h2 : did.length ≤ 128) :
    deserialize_verification (encode_verification rid did) = .ok (rid, did) := by
  have e0 : sliceIdx (encode_verification rid did) 0 8 = .ok (leBytes 8 rid) :=
    sliceIdx_spec _ [] (leBytes 8 rid) (leBytes 4 did.length ++ did) _ _
      (by simp [encode_verification]) (by simp) (by simp)
  have e1 : sliceIdx (encode_verification rid did) 8 12 = .ok (leBytes 4 did.length) :=
    sliceIdx_spec _ (leBytes 8 rid) (leBytes 4 did.length) did _ _
      (by simp [encode_verification]) (by simp) (by simp)
  have e2 : sliceIdx (encode_verification rid did) 12 (12 + did.length) = .ok did :=
    sliceIdx_spec _ (leBytes 8 rid ++ leBytes 4 did.length) did [] _ _
      (by simp [encode_verification]) (by simp) (by simp)
  simp only [deserialize_verification, e0, e1, e2, ok_bind,
    u64_leBytes rid h1, u32_leBytes did.length (by omega), if_pos h2]

theorem asset_creation_roundtrip (issuer name symbol : List Nat)
    (hiss : issuer.length = 32) (hn : name.length ≤ 32) (hs : symbol.length ≤ 10) :
    deserialize_asset_creation (encode_asset_creation issuer name symbol) =
      .ok (issuer, name, symbol) := by
  have e0 : sliceIdx (encode_asset_creation issuer name symbol) 0 32 = .ok issuer :=
    sliceIdx_spec _ [] issuer
      (leBytes 4 name.length ++ name ++ leBytes 4 symbol.length ++ symbol) _ _
      (by simp [encode_asset_creation]) (by simp) (by simp [hiss])
  have e1 : sliceIdx (encode_asset_creation issuer name symbol) 32 36 =
      .ok (leBytes 4 name.length) :=
    sliceIdx_spec _ issuer (leBytes 4 name.length)
      (name ++ leBytes 4 symbol.length ++ symbol) _ _
      (by simp [encode_asset_creation]) (by simp [hiss]) (by simp [hiss])
  have e2 : sliceIdx (encode_asset_creation issuer name symbol) 36 (36 + name.length) =
      .ok name :=
    sliceIdx_spec _ (issuer ++ leBytes 4 name.length) name
      (leBytes 4 symbol.length ++ symbol) _ _
      (by simp [encode_asset_creation]) (by simp [hiss]) (by simp [hiss])
  have e3 : sliceIdx (encode_asset_creation issuer name symbol)
      (36 + name.length) (36 + name.length + 4) = .ok (leBytes 4 symbol.length) :=
    sliceIdx_spec _ (issuer ++ leBytes 4 name.length ++ name)
      (leBytes 4 symbol.length) symbol _ _
      (by simp [encode_asset_creation]) (by simp [hiss]; omega) (by simp [hiss]; omega)
  have e4 : sliceIdx (encode_asset_creation issuer name symbol)
      (36 + name.length + 4) (36 + name.length + 4 + symbol.length) = .ok symbol :=
    sliceIdx_spec _
      (issuer ++ leBytes 4 name.length ++ name ++ leBytes 4 symbol.length) symbol [] _ _
      (by simp [encode_asset_creation]) (by simp [hiss]; omega) (by simp [hiss]; omega)
  have hpk : pubkey_try_from_slice issuer = .ok issuer := by
    unfold pubkey_try_from_slice; rw [if_pos hiss]
  simp only [deserialize_asset_creation, e0, e1, e2, e3, e4, hpk, ok_bind,
    u32_leBytes name.length (by omega), u32_leBytes symbol.length (by omega),
    if_pos hn, if_pos hs]

theorem token_transfer_roundtrip (tid : Nat) (addr : List Nat) (amount : Nat)
    (h1 : tid < 2 ^ 64) (ha : addr.length = 32) (h2 : amount < 2 ^ 64) :
    deserialize_token_transfer (encode_token_transfer tid addr amount) =
      .ok (tid, addr, amount) := by
  have e0 : sliceIdx (encode_token_transfer tid addr amount) 0 8 = .ok (leBytes 8 tid) :=
    sliceIdx_spec _ [] (leBytes 8 tid) (addr ++ leBytes 8 amount) _ _
      (by simp [encode_token_transfer]) (by simp) (by simp)
  have e1 : sliceIdx (encode_token_transfer tid addr amount) 8 40 = .ok addr :=
    sliceIdx_spec _ (leBytes 8 tid) addr (leBytes 8 amount) _ _
      (by simp [encode_token_transfer]) (by simp) (by simp [ha])
  have e2 : sliceIdx (encode_token_transfer tid addr amount) 40 48 =
      .ok (leBytes 8 amount) :=
    sliceIdx_spec _ (leBytes 8 tid ++ addr) (leBytes 8 amount) [] _ _
      (by simp [encode_token_transfer]) (by simp [ha]) (by simp [ha])
  have hpk : pubkey_try_from_slice addr = .ok addr := by
    unfold pubkey_try_from_slice; rw [if_pos ha]
  simp only [deserialize_token_transfer, e0, e1, e2, hpk, ok_bind,
    u64_leBytes tid h1, u64_leBytes amount h2]

theorem credential_verification_roundtrip (rid : Nat) (hash : List Nat)
    (h1 : rid < 2 ^ 64) (hh : hash.length = 32) :
    deserialize_credential_verification (encode_credential_verification rid hash) =
      .ok (rid, hash) := by
  have e0 : sliceIdx (encode_credential_verification rid hash) 0 8 =
      .ok (leBytes 8 rid) :=
    sliceIdx_spec _ [] (leBytes 8 rid) hash _ _
      (by simp [encode_credential_verification]) (by simp) (by simp)
  have e1 : sliceIdx (encode_credential_verification rid hash) 8 40 = .ok hash :=
    sliceIdx_spec _ (leBytes 8 rid) hash [] _ _
      (by simp [encode_credential_verification]) (by simp) (by simp [hh])
  simp only [deserialize_credential_verification, e0, e1, ok_bind, u64_leBytes rid h1]

theorem role_sync_roundtrip (rid : Nat) (role account : List Nat) (is_grant : Bool)
    (h1 : rid < 2 ^ 64) (hr : role.length = 32) (hacc : account.length = 32) :
    deserialize_role_sync (encode_role_sync rid role account is_grant) =
      .ok (rid, role, account, is_grant) := by
  have e0 : sliceIdx (encode_role_sync rid role account is_grant) 0 8 =
      .ok (leBytes 8 rid) :=
    sliceIdx_spec _ [] (leBytes 8 rid)
      (role ++ account ++ [if is_grant then 1 else 0]) _ _
      (by simp [encode_role_sync]) (by simp) (by simp)
  have e1 : sliceIdx (encode_role_sync rid role account is_grant) 8 40 = .ok role :=
    sliceIdx_spec _ (leBytes 8 rid) role (account ++ [if is_grant then 1 else 0]) _ _
      (by simp [encode_role_sync]) (by simp) (by simp [hr])
  have e2 : sliceIdx (encode_role_sync rid role account is_grant) 40 72 = .ok account :=
    sliceIdx_spec _ (leBytes 8 rid ++ role) account [if is_grant then 1 else 0] _ _
      (by simp [encode_role_sync]) (by simp [hr]) (by simp [hr, hacc])
  have e3 : indexByte (encode_role_sync rid role account is_grant) 72 =
      .ok (if is_grant then 1 else 0) := by
    unfold indexByte
    have hlen : (leBytes 8 rid ++ (role ++ account)).length = 72 := by
      simp [hr, hacc]
    have : (encode_role_sync rid role account is_grant)[72]? =
        some (if is_grant then 1 else 0) := by
      have happ : encode_role_sync rid role account is_grant =
          (leBytes 8 rid ++ (role ++ account)) ++ [if is_grant then 1 else 0] := by
        simp [encode_role_sync]
      rw [happ, List.getElem?_append_right (by omega), hlen]
      simp
    rw [this]
  simp only [deserialize_role_sync, e0, e1, e2, e3, ok_bind, u64_leBytes rid h1]
  cases is_grant <;> simp

theorem token_transfer_short (data : List Nat) (h : data.length < 48) :
    deserialize_token_transfer data = .error .indexOutOfRange := by
  unfold deserialize_token_transfer
  rcases Nat.lt_or_ge data.length 8 with h8 | h8
  · rw [sliceIdx_err _ 0 8 (by omega)]
    simp only [error_bind]
  · rw [sliceIdx_ok_of_le _ 0 8 (by omega) (by omega)]
    simp only [ok_bind]
    unfold u64_try_from_slice
    rw [if_pos (by simp [List.length_take, List.length_drop]; omega)]
    simp only [ok_bind]
    rcases Nat.lt_or_ge data.length 40 with h40 | h40
    · rw [sliceIdx_err _ 8 40 (by omega)]
      simp only [error_bind]
    · rw [sliceIdx_ok_of_le _ 8 40 (by omega) (by omega)]
      simp only [ok_bind]
      unfold pubkey_try_from_slice
      rw [if_pos (by simp [List.length_take, List.length_drop]; omega)]
      simp only [ok_bind]
      rw [sliceIdx_err _ 40 48 (by omega)]
      simp only [error_bind]

theorem verification_short (data : List Nat) (h : data.length < 12) :
    deserialize_verification data = .error .indexOutOfRange := by
  unfold deserialize_verification
  rcases Nat.lt_or_ge data.length 8 with h8 | h8
  · rw [sliceIdx_err _ 0 8 (by omega)]
    simp only [error_bind]
  · rw [sliceIdx_ok_of_le _ 0 8 (by omega) (by omega)]
    simp only [ok_bind]
    unfold u64_try_from_slice
    rw [if_pos (by simp [List.length_take, List.length_drop]; omega)]
    simp only [ok_bind]
    rw [sliceIdx_err _ 8 12 (by omega)]
    simp only [error_bind]

theorem verification_len_over_bound (data : List Nat) (h12 : 12 ≤ data.length)
    (hbig : 129 ≤ leVal ((data.drop 8).take 4)) :
    deserialize_verification data = .error (.code .StringTooLong) := by
  unfold deserialize_verification
  rw [sliceIdx_ok_of_le _ 0 8 (by omega) (by omega)]
  simp only [ok_bind]
  unfold u64_try_from_slice
  rw [if_pos (by simp [List.length_take, List.length_drop]; omega)]
  simp only [ok_bind]
  rw [sliceIdx_ok_of_le _ 8 12 (by omega) (by omega)]
  simp only [ok_bind, show (12 : Nat) - 8 = 4 from by omega]
  unfold u32_try_from_slice
  rw [if_pos (by simp [List.length_take, List.length_drop]; omega)]
  simp only [ok_bind]
  rw [if_neg (by omega)]

theorem asset_name_len_over_bound (data : List Nat) (h36 : 36 ≤ data.length)
    (hbig : 33 ≤ leVal ((data.drop 32).take 4)) :
    deserialize_asset_creation data = .error (.code .StringTooLong) := by
  unfold deserialize_asset_creation
  rw [sliceIdx_ok_of_le _ 0 32 (by omega) (by omega)]
  simp only [ok_bind]
  unfold pubkey_try_from_slice
  rw [if_pos (by simp [List.length_take, List.length_drop]; omega)]
  simp only [ok_bind]
  rw [sliceIdx_ok_of_le _ 32 36 (by omega) (by omega)]
  simp only [ok_bind, show (36 : Nat) - 32 = 4 from by omega]
  unfold u32_try_from_slice
  rw [if_pos (by simp [List.length_take, List.length_drop]; omega)]
  simp only [ok_bind]
  rw [if_neg (by omega)]

theorem asset_symbol_len_over_bound (data : List Nat) (name_len : Nat)
    (hlen : 36 + name_len + 4 ≤ data.length)
    (hname : leVal ((data.drop 32).take 4) = name_len) (hn : name_len ≤ 32)
    (hbig : 11 ≤ leVal ((data.drop (36 + name_len)).take 4)) :
    deserialize_asset_creation data = .error (.code .StringTooLong) := by
  unfold deserialize_asset_creation
  rw [sliceIdx_ok_of_le _ 0 32 (by omega) (by omega)]
  simp only [ok_bind]
  unfold pubkey_try_from_slice
  rw [if_pos (by simp [List.length_take, List.length_drop]; omega)]
  simp only [ok_bind]
  rw [sliceIdx_ok_of_le _ 32 36 (by omega) (by omega)]
  simp only [ok_bind, show (36 : Nat) - 32 = 4 from by omega]
  unfold u32_try_from_slice
  rw [if_pos (by simp [List.length_take, List.length_drop]; omega)]
  simp only [ok_bind, hname]
  rw [if_pos hn]
  rw [sliceIdx_ok_of_le _ 36 (36 + name_len) (by omega) (by omega)]
  simp only [ok_bind]
  rw [sliceIdx_ok_of_le _ (36 + name_len) (36 + name_len + 4) (by omega) (by omega)]
  simp only [ok_bind, show 36 + name_len + 4 - (36 + name_len) = 4 from by omega]
  rw [if_pos (by simp [List.length_take, List.length_drop]; omega)]
  simp only [ok_bind]
  rw [if_neg (by omega)]

theorem pp_verification (mintOk : Bool) (st : ProgramState) (p : MessagePayload)
    (ht : p.msg_type = .Verification) (s1 : ProgramState) (out : DispatchOut)
    (hok : processPayload mintOk st p = .ok (s1, out)) :
    s1.verification_count = st.verification_count + 1 := by
  unfold processPayload at hok
  rw [ht] at hok
  cases hd : deserialize_verification p.data with
  | error e => rw [hd] at hok; simp at hok
  | ok v =>
    rw [hd] at hok
    obtain ⟨rid, did⟩ := v
    simp only [ok_bind] at hok
    cases hv : vecToString did with
    | error e => rw [hv] at hok; simp at hok
    | ok s =>
      rw [hv] at hok
      simp only [ok_bind, Except.ok.injEq, Prod.mk.injEq] at hok
      obtain ⟨h1, -⟩ := hok
      rw [← h1]

theorem pp_didresolution (mintOk : Bool) (st : ProgramState) (p : MessagePayload)
    (ht : p.msg_type = .DIDResolution) (s1 : ProgramState) (out : DispatchOut)
    (hok : processPayload mintOk st p = .ok (s1, out)) :
    s1.verification_count = st.verification_count := by
  unfold processPayload at hok
  rw [ht] at hok
  cases hd : deserialize_verification p.data with
  | error e => rw [hd] at hok; simp at hok
  | ok v =>
    rw [hd] at hok
    obtain ⟨rid, did⟩ := v
    simp only [ok_bind] at hok
    cases hv : vecToString did with
    | error e => rw [hv] at hok; simp at hok
    | ok s =>
      rw [hv] at hok
      simp only [ok_bind, Except.ok.injEq, Prod.mk.injEq] at hok
      obtain ⟨h1, -⟩ := hok
      rw [← h1]

theorem pp_tt_err (mintOk : Bool) (st : ProgramState) (dat : List Nat) (ts : Nat)
    (mid : List Nat)
    (htt : deserialize_token_transfer dat = .error .indexOutOfRange) :
    processPayload mintOk st ⟨.TokenTransfer, dat, ts, mid⟩ =
      .error .indexOutOfRange := by
  unfold processPayload
  simp only [htt, error_bind]

/-! ### Claim theorems -/

/-- C1: `receive_message` with an `origin_chain_id` (Wormhole emitter chain)
different from the statically configured remote chain (`2`, Polygon) fails
with `InvalidChain` for every payload whatsoever — so in particular for every
otherwise-valid one — leaving the persistent state unchanged; the check is
the first step of the handler, before the payload is even deserialized, so
no message handler can run. -/
theorem chain_gate_rejects_wrong_origin (emitter_chain : Nat) (vaaPayload : List Nat)
    (state : ProgramStateV1) (mintOk postOk : Bool) (h : emitter_chain ≠ 2) :
    receive_message_v1 emitter_chain vaaPayload state mintOk postOk =
      .error (.code .InvalidChain) ∧
    runReceiveV1 emitter_chain vaaPayload state mintOk postOk = state := by
  have h1 : receive_message_v1 emitter_chain vaaPayload state mintOk postOk =
      .error (.code .InvalidChain) := by
    unfold receive_message_v1
    rw [if_neg h]
  refine ⟨h1, ?_⟩
  unfold runReceiveV1
  rw [h1]

/-- Witness for C1: a Verification payload that dispatches successfully from
chain 2 is rejected with `InvalidChain` from chain 3. -/
theorem chain_gate_rejects_wrong_origin_witness :
    receive_message_v1 3 ([0] ++ [9, 0, 0, 0] ++ [1, 0, 0, 0, 0, 0, 0, 0, 65]) ⟨0, 0⟩
        true true =
      .error (.code .InvalidChain) ∧
    receive_message_v1 2 ([0] ++ [9, 0, 0, 0] ++ [1, 0, 0, 0, 0, 0, 0, 0, 65]) ⟨0, 0⟩
        true true =
      .ok (⟨0, 1⟩, { events := [.verification 1 [65] true],
                     posts := [.verificationResponse 1 true 2], mints := [] }) :=
  ⟨(chain_gate_rejects_wrong_origin 3 _ _ true true (by decide)).1, by rfl⟩

/-- C2 counterexample: a 47-byte `TokenTransfer` payload does NOT fail with a
`MalformedPayload` error — no such error code exists in the program — it
aborts through a Rust slice-index panic (`&data[40..48]` out of range),
modelled as `ProgError.indexOutOfRange`, which is not `ProgError.code e` for
any `ErrorCode e`. -/
theorem token_transfer_short_buffer_panics :
    deserialize_token_transfer (List.replicate 47 0) = .error .indexOutOfRange := by rfl

/-- C2 amended: for every payload decoder, an input buffer shorter than the
fixed layout (e.g. fewer than 48 bytes for `TokenTransfer`, fewer than 12 for
`Verification`) makes decoding abort via a slice-index panic, which aborts
the transaction: no mint invocation occurs, no reply is built, and no state
is mutated.  The abort is a panic, not a graceful `MalformedPayload` error
(the program defines none). -/
theorem short_buffer_aborts :
    (∀ data : List Nat, data.length < 48 →
      deserialize_token_transfer data = .error .indexOutOfRange) ∧
    (∀ data : List Nat, data.length < 12 →
      deserialize_verification data = .error .indexOutOfRange) ∧
    (∀ (mintOk : Bool) (sys : RegistryState) (ts : Nat) (mid data : List Nat),
      data.length < 48 →
      processPayloadSys mintOk sys ⟨.TokenTransfer, data, ts, mid⟩ =
        .error .indexOutOfRange ∧
      runReceive mintOk sys ⟨.TokenTransfer, data, ts, mid⟩ = sys) := by
  refine ⟨token_transfer_short, verification_short, ?_⟩
  intro mintOk sys ts mid data h
  have hp := pp_tt_err mintOk sys.state data ts mid (token_transfer_short data h)
  have h1 : processPayloadSys mintOk sys ⟨.TokenTransfer, data, ts, mid⟩ =
      .error .indexOutOfRange := by
    unfold processPayloadSys
    rw [hp]
  exact ⟨h1, by unfold runReceive; rw [h1]⟩

/-- Witness for the amended C2: concrete short buffers abort and the store is
untouched. -/
theorem short_buffer_aborts_witness :
    deserialize_verification [1, 2, 3] = .error .indexOutOfRange ∧
    runReceive true ⟨⟨0, 0, 0⟩, []⟩ ⟨.TokenTransfer, List.replicate 47 0, 0, []⟩ =
      ⟨⟨0, 0, 0⟩, []⟩ :=
  ⟨short_buffer_aborts.2.1 [1, 2, 3] (by decide),
   (short_buffer_aborts.2.2 true ⟨⟨0, 0, 0⟩, []⟩ 0 [] (List.replicate 47 0)
     (by simp)).2⟩

/-- C3 counterexample: a `DIDResolution` message with a well-formed payload
dispatches successfully, yet `verification_count` stays 0 instead of rising
to 1 — the `DIDResolution` branch of `receive_message` contains no
`verification_count += 1`. -/
theorem didresolution_dispatch_keeps_count :
    processPayloadSys true ⟨⟨0, 0, 0⟩, []⟩
        ⟨.DIDResolution, [1, 0, 0, 0, 0, 0, 0, 0, 1, 0, 0, 0, 97], 0, []⟩ =
      .ok (⟨⟨0, 0, 0⟩, []⟩,
        { events := [.didResolution 1 [97] true],
          replies := [.didResolutionResponse 1 true []], mints := [] }) := by rfl

/-- C3 amended: `verification_count` increases by exactly 1 for every
successfully dispatched `Verification` message, is UNCHANGED by a
successfully dispatched `DIDResolution` message, and is unchanged by any
dispatch that fails at any step. -/
theorem verification_count_per_dispatch (mintOk : Bool) (sys : RegistryState)
    (p : MessagePayload) :
    (p.msg_type = .Verification → ∀ sys1 out,
      processPayloadSys mintOk sys p = .ok (sys1, out) →
      sys1.state.verification_count = sys.state.verification_count + 1) ∧
    (p.msg_type = .DIDResolution → ∀ sys1 out,
      processPayloadSys mintOk sys p = .ok (sys1, out) →
      sys1.state.verification_count = sys.state.verification_count) ∧
    (∀ e, processPayloadSys mintOk sys p = .error e → runReceive mintOk sys p = sys) := by
  refine ⟨?_, ?_, ?_⟩
  · intro ht sys1 out hok
    unfold processPayloadSys at hok
    cases hpp : processPayload mintOk sys.state p with
    | error e => rw [hpp] at hok; simp at hok
    | ok v =>
      rw [hpp] at hok
      obtain ⟨s, out0⟩ := v
      simp only [Except.ok.injEq, Prod.mk.injEq] at hok
      obtain ⟨h1, -⟩ := hok
      rw [← h1]
      exact pp_verification mintOk sys.state p ht s out0 hpp
  · intro ht sys1 out hok
    unfold processPayloadSys at hok
    cases hpp : processPayload mintOk sys.state p with
    | error e => rw [hpp] at hok; simp at hok
    | ok v =>
      rw [hpp] at hok
      obtain ⟨s, out0⟩ := v
      simp only [Except.ok.injEq, Prod.mk.injEq] at hok
      obtain ⟨h1, -⟩ := hok
      rw [← h1]
      exact pp_didresolution mintOk sys.state p ht s out0 hpp
  · intro e he
    unfold runReceive
    rw [he]

/-- Witness for the amended C3: a concrete successful `Verification` dispatch
raises the counter from 0 to 1. -/
theorem verification_count_per_dispatch_witness :
    ({ state := ⟨0, 1, 0⟩, credentials := [] } : RegistryState).state.verification_count =
      ({ state := ⟨0, 0, 0⟩, credentials := [] } :
        RegistryState).state.verification_count + 1 :=
  (verification_count_per_dispatch true ⟨⟨0, 0, 0⟩, []⟩
      ⟨.Verification, [1, 0, 0, 0, 0, 0, 0, 0, 1, 0, 0, 0, 97], 0, []⟩).1 rfl
    ⟨⟨0, 1, 0⟩, []⟩
    { events := [.verification 1 [97] true],
      replies := [.verificationResponse 1 true], mints := [] } (by rfl)

/-- C4 counterexample: the non-UTF-8 byte `0xFF` makes the `Vec<u8> → String`
conversion fail with `ErrorCode::StringTooLong` — the very same error code
produced by the length-bound check (second conjunct: a declared DID length of
129) — not a distinct `EncodingError`, which the program does not define. -/
theorem utf8_failure_reuses_bound_error :
    vecToString [255] = .error (.code .StringTooLong) ∧
    deserialize_verification ([1, 0, 0, 0, 0, 0, 0, 0] ++ [129, 0, 0, 0]) =
      .error (.code .StringTooLong) :=
  ⟨by rfl, by rfl⟩

/-- C4 amended: a decoded textual byte field that is not valid UTF-8 makes
event construction fail with `ErrorCode::StringTooLong` — the same error code
as the length bound, not a distinct encoding error (second conjunct: the
whole `Verification` dispatch fails with it). -/
theorem invalid_utf8_yields_length_error :
    (∀ v, isValidUtf8 v = false → vecToString v = .error (.code .StringTooLong)) ∧
    (∀ (mintOk : Bool) (sys : RegistryState) (ts : Nat) (mid : List Nat) (rid : Nat)
      (did : List Nat), rid < 2 ^ 64 → did.length ≤ 128 → isValidUtf8 did = false →
      processPayloadSys mintOk sys
          ⟨.Verification, encode_verification rid did, ts, mid⟩ =
        .error (.code .StringTooLong)) := by
  constructor
  · intro v hv
    simp [vecToString, hv]
  · intro mintOk sys ts mid rid did h1 h2 hv
    have hd := verification_roundtrip rid did h1 h2
    have hvs : vecToString did = .error (.code .StringTooLong) := by
      simp [vecToString, hv]
    have hp : processPayload mintOk sys.state
        ⟨.Verification, encode_verification rid did, ts, mid⟩ =
        .error (.code .StringTooLong) := by
      unfold processPayload
      simp only [hd, ok_bind, hvs, error_bind]
    unfold processPayloadSys
    rw [hp]

/-- Witness for the amended C4 at concrete invalid bytes. -/
theorem invalid_utf8_yields_length_error_witness :
    vecToString [251] = .error (.code .StringTooLong) ∧
    processPayloadSys true ⟨⟨0, 0, 0⟩, []⟩
        ⟨.Verification, encode_verification 1 [255], 0, []⟩ =
      .error (.code .StringTooLong) :=
  ⟨invalid_utf8_yields_length_error.1 [251] (by rfl),
   invalid_utf8_yields_length_error.2 true ⟨⟨0, 0, 0⟩, []⟩ 0 [] 1 [255] (by norm_num)
     (by decide) (by rfl)⟩

/-- C5: `revoke_credential` fails with `Unauthorized` iff the caller differs
from the record's owner; on that failure the record is unchanged; when the
caller is the owner the call succeeds — also on an already-revoked record —
setting `is_valid = false`, overwriting `revocation_date` with the current
time, and emitting `CredentialRevokedEvent` carrying the record's hash. -/
theorem revoke_credential_auth_spec (credential_pubkey : Pubkey)
    (credential : Credential) (caller : Pubkey) (now : Nat) :
    (revoke_credential credential_pubkey credential caller now =
        .error (.code .Unauthorized) ↔ credential.owner ≠ caller) ∧
    (credential.owner ≠ caller →
      credAfterRevoke credential_pubkey credential caller now = credential) ∧
    (credential.owner = caller →
      revoke_credential credential_pubkey credential caller now =
        .ok ({ credential with is_valid := false, revocation_date := now },
             .credentialRevoked credential_pubkey credential.hash now)) := by
  unfold revoke_credential credAfterRevoke
  by_cases hc : credential.owner = caller <;> simp [hc, revoke_credential]

/-- Witness for C5: the owner re-revokes an already-revoked record,
overwriting `revocation_date` 11 with 42; a non-owner leaves the record
untouched. -/
theorem revoke_credential_auth_spec_witness :
    revoke_credential 7 ⟨List.replicate 32 9, false, 5, 11⟩ 5 42 =
      .ok (⟨List.replicate 32 9, false, 5, 42⟩,
           .credentialRevoked 7 (List.replicate 32 9) 42) ∧
    credAfterRevoke 7 ⟨List.replicate 32 9, true, 5, 0⟩ 6 42 =
      ⟨List.replicate 32 9, true, 5, 0⟩ :=
  ⟨(revoke_credential_auth_spec 7 ⟨List.replicate 32 9, false, 5, 11⟩ 5 42).2.2 rfl,
   (revoke_credential_auth_spec 7 ⟨List.replicate 32 9, true, 5, 0⟩ 6 42).2.1
     (by decide)⟩

/-- C6: for every 32-byte hash, `store_credential` succeeds, appending a
record `{hash, is_valid := true, owner := caller, revocation_date := 0}`,
incrementing `credential_count` by exactly 1 (other state fields untouched),
and emitting `CredentialStoredEvent` with the handle, hash and owner; no
uniqueness of `hash` is enforced: storing the same hash again creates a
second, independent record. -/
theorem store_credential_spec (sys : RegistryState) (authority : Pubkey)
    (credential_hash : List Nat) (_hlen : credential_hash.length = 32) :
    (store_credential sys authority credential_hash).1.credentials =
      sys.credentials ++
        [{ hash := credential_hash, is_valid := true, owner := authority,
           revocation_date := 0 }] ∧
    (store_credential sys authority credential_hash).1.state.credential_count =
      sys.state.credential_count + 1 ∧
    (store_credential sys authority credential_hash).1.state.verification_count =
      sys.state.verification_count ∧
    (store_credential sys authority credential_hash).1.state.authority =
      sys.state.authority ∧
    (store_credential sys authority credential_hash).2 =
      .credentialStored sys.credentials.length credential_hash authority ∧
    (store_credential (store_credential sys authority credential_hash).1 authority
        credential_hash).1.credentials =
      sys.credentials ++
        [{ hash := credential_hash, is_valid := true, owner := authority,
           revocation_date := 0 },
         { hash := credential_hash, is_valid := true, owner := authority,
           revocation_date := 0 }] := by
  unfold store_credential
  simp

/-- Witness for C6 at a concrete 32-byte hash on an empty registry. -/
theorem store_credential_spec_witness :
    (store_credential ⟨⟨0, 0, 0⟩, []⟩ 5 (List.replicate 32 9)).1.credentials =
      [{ hash := List.replicate 32 9, is_valid := true, owner := 5,
         revocation_date := 0 }] :=
  (store_credential_spec ⟨⟨0, 0, 0⟩, []⟩ 5 (List.replicate 32 9) (by decide)).1

/-- C7: a declared length field over its type-specific maximum (≥ 129 for the
DID, ≥ 33 for the asset name, ≥ 11 for the asset symbol) makes decoding fail
with the length-bound error (`ErrorCode::StringTooLong`, the spec's
`FieldTooLong`); the bound is checked before the slice is taken, so even a
buffer too short to hold the declared bytes yields this error and never an
out-of-range read. -/
theorem declared_length_bound_enforced :
    (∀ data : List Nat, 12 ≤ data.length → 129 ≤ leVal ((data.drop 8).take 4) →
      deserialize_verification data = .error (.code .StringTooLong)) ∧
    (∀ data : List Nat, 36 ≤ data.length → 33 ≤ leVal ((data.drop 32).take 4) →
      deserialize_asset_creation data = .error (.code .StringTooLong)) ∧
    (∀ (data : List Nat) (name_len : Nat), 36 + name_len + 4 ≤ data.length →
      leVal ((data.drop 32).take 4) = name_len → name_len ≤ 32 →
      11 ≤ leVal ((data.drop (36 + name_len)).take 4) →
      deserialize_asset_creation data = .error (.code .StringTooLong)) :=
  ⟨verification_len_over_bound, asset_name_len_over_bound, asset_symbol_len_over_bound⟩

/-- Witness for C7: buffers declaring lengths 130, 33 and 11, each too short
to hold the declared bytes, still fail with the bound error, not a panic. -/
theorem declared_length_bound_enforced_witness :
    deserialize_verification ([2, 0, 0, 0, 0, 0, 0, 0] ++ [130, 0, 0, 0]) =
      .error (.code .StringTooLong) ∧
    deserialize_asset_creation (List.replicate 32 0 ++ [33, 0, 0, 0]) =
      .error (.code .StringTooLong) ∧
    deserialize_asset_creation (List.replicate 32 0 ++ [0, 0, 0, 0] ++ [11, 0, 0, 0]) =
      .error (.code .StringTooLong) :=
  ⟨declared_length_bound_enforced.1 _ (by decide) (by decide),
   declared_length_bound_enforced.2.1 _ (by decide) (by decide),
   declared_length_bound_enforced.2.2 _ 0 (by decide) (by decide) (by decide)
     (by decide)⟩

/-- C8: an inbound envelope whose tag is any of the five response variants is
rejected with `InvalidMessageType`, and the persistent store — counters and
every credential record — is unchanged. -/
theorem response_types_rejected (mintOk : Bool) (sys : RegistryState)
    (p : MessagePayload) (h : isResponseType p.msg_type = true) :
    processPayloadSys mintOk sys p = .error (.code .InvalidMessageType) ∧
    runReceive mintOk sys p = sys := by
  have hp : processPayload mintOk sys.state p = .error (.code .InvalidMessageType) := by
    obtain ⟨mt, dat, ts, mid⟩ := p
    cases mt <;> simp_all [processPayload, isResponseType]
  have h1 : processPayloadSys mintOk sys p = .error (.code .InvalidMessageType) := by
    unfold processPayloadSys
    rw [hp]
  refine ⟨h1, ?_⟩
  unfold runReceive
  rw [h1]

/-- Witness for C8: a `VerificationResponse` envelope is rejected. -/
theorem response_types_rejected_witness :
    processPayloadSys true ⟨⟨0, 0, 0⟩, []⟩ ⟨.VerificationResponse, [], 0, []⟩ =
      .error (.code .InvalidMessageType) :=
  (response_types_rejected true ⟨⟨0, 0, 0⟩, []⟩ ⟨.VerificationResponse, [], 0, []⟩
    (by decide)).1

/-- C9: for every payload type, decoding the reference little-endian,
length-prefixed encoding of a value respecting the §4.1 length bounds
(DID ≤ 128, name ≤ 32, symbol ≤ 10, u64 fields < 2^64, 32-byte fixed fields)
returns exactly that value. -/
theorem decode_encode_roundtrip :
    (∀ request_id did, request_id < 2 ^ 64 → did.length ≤ 128 →
      deserialize_verification (encode_verification request_id did) =
        .ok (request_id, did)) ∧
    (∀ issuer name symbol : List Nat, issuer.length = 32 → name.length ≤ 32 →
      symbol.length ≤ 10 →
      deserialize_asset_creation (encode_asset_creation issuer name symbol) =
        .ok (issuer, name, symbol)) ∧
    (∀ transfer_id addr amount, transfer_id < 2 ^ 64 → addr.length = 32 →
      amount < 2 ^ 64 →
      deserialize_token_transfer (encode_token_transfer transfer_id addr amount) =
        .ok (transfer_id, addr, amount)) ∧
    (∀ request_id hash, request_id < 2 ^ 64 → hash.length = 32 →
      deserialize_credential_verification
        (encode_credential_verification request_id hash) = .ok (request_id, hash)) ∧
    (∀ request_id role account is_grant, request_id < 2 ^ 64 → role.length = 32 →
      account.length = 32 →
      deserialize_role_sync (encode_role_sync request_id role account is_grant) =
        .ok (request_id, role, account, is_grant)) :=
  ⟨verification_roundtrip,
   asset_creation_roundtrip,
   fun tid addr amount h1 ha h2 => token_transfer_roundtrip tid addr amount h1 ha h2,
   credential_verification_roundtrip,
   fun rid role account g h1 hr hacc => role_sync_roundtrip rid role account g h1 hr hacc⟩

/-- Witness for C9: one concrete round trip per payload type. -/
theorem decode_encode_roundtrip_witness :
    deserialize_verification (encode_verification 5 [104, 105]) = .ok (5, [104, 105]) ∧
    deserialize_asset_creation
        (encode_asset_creation (List.replicate 32 7) [97] [98]) =
      .ok (List.replicate 32 7, [97], [98]) ∧
    deserialize_token_transfer (encode_token_transfer 4 (List.replicate 32 6) 1000) =
      .ok (4, List.replicate 32 6, 1000) ∧
    deserialize_credential_verification
        (encode_credential_verification 3 (List.replicate 32 5)) =
      .ok (3, List.replicate 32 5) ∧
    deserialize_role_sync
        (encode_role_sync 9 (List.replicate 32 1) (List.replicate 32 2) true) =
      .ok (9, List.replicate 32 1, List.replicate 32 2, true) :=
  ⟨decode_encode_roundtrip.1 5 [104, 105] (by norm_num) (by decide),
   decode_encode_roundtrip.2.1 (List.replicate 32 7) [97] [98] (by decide) (by decide)
     (by decide),
   decode_encode_roundtrip.2.2.1 4 (List.replicate 32 6) 1000 (by norm_num) (by decide)
     (by norm_num),
   decode_encode_roundtrip.2.2.2.1 3 (List.replicate 32 5) (by norm_num) (by decide),
   decode_encode_roundtrip.2.2.2.2 9 (List.replicate 32 1) (List.replicate 32 2) true
     (by norm_num) (by decide) (by decide)⟩

/-- C10: a successful `revoke_credential` leaves the whole `ProgramState`
untouched (the instruction's accounts do not even include it), keeps the
registry's length and every other credential record, and changes the target
record only in `is_valid` and `revocation_date` — its `hash` and `owner` are
preserved. -/
theorem revoke_credential_frame (sys : RegistryState) (handle : Nat) (caller : Pubkey)
    (now : Nat) (sys1 : RegistryState) (ev : Event)
    (hok : revoke_in_system sys handle caller now = .ok (sys1, ev)) :
    sys1.state = sys.state ∧
    sys1.credentials.length = sys.credentials.length ∧
    (∀ i, i ≠ handle → sys1.credentials[i]? = sys.credentials[i]?) ∧
    (∀ c c1, sys.credentials[handle]? = some c → sys1.credentials[handle]? = some c1 →
      c1.hash = c.hash ∧ c1.owner = c.owner ∧ c1.is_valid = false ∧
      c1.revocation_date = now) := by
  unfold revoke_in_system at hok
  cases hl : sys.credentials[handle]? with
  | none => rw [hl] at hok; simp at hok
  | some cred =>
    rw [hl] at hok
    simp only [revoke_credential] at hok
    by_cases hc : cred.owner = caller
    · simp only [if_pos hc, Except.ok.injEq, Prod.mk.injEq] at hok
      obtain ⟨h1, -⟩ := hok
      have hlt : handle < sys.credentials.length := by
        by_contra hge
        push_neg at hge
        rw [List.getElem?_eq_none hge] at hl
        exact Option.noConfusion hl
      refine ⟨by rw [← h1], by rw [← h1]; simp [List.length_set], ?_, ?_⟩
      · intro i hi
        rw [← h1]
        simp only
        exact List.getElem?_set_ne (fun he => hi he.symm)
      · intro c c1 hcc hcc1
        injection hcc with hcc
        rw [← h1] at hcc1
        simp only [List.getElem?_set_self hlt, Option.some.injEq] at hcc1
        rw [← hcc1, ← hcc]
        exact ⟨rfl, rfl, rfl, rfl⟩
    · simp only [if_neg hc] at hok
      simp at hok

/-- Witness for C10: a concrete successful revocation preserves the
`ProgramState` component of the store. -/
theorem revoke_credential_frame_witness :
    (⟨⟨3, 4, 6⟩, [⟨List.replicate 32 9, false, 5, 42⟩]⟩ : RegistryState).state =
    (⟨⟨3, 4, 6⟩, [⟨List.replicate 32 9, true, 5, 0⟩]⟩ : RegistryState).state :=
  (revoke_credential_frame ⟨⟨3, 4, 6⟩, [⟨List.replicate 32 9, true, 5, 0⟩]⟩ 0 5 42
    ⟨⟨3, 4, 6⟩, [⟨List.replicate 32 9, false, 5, 42⟩]⟩
    (.credentialRevoked 0 (List.replicate 32 9) 42) (by rfl)).1

end RWA
